import Mathlib

/-!
# A verification development for the twextender journal subsystem

This file gives a shallow embedding, in Lean 4, of the journal subsystem
implemented in twextender/journal.py, together with theorems settling the
behavioural claims made by the specification of that subsystem.

Modelling conventions:

* Python strings are modelled as lists of characters (the type Chars below).
  Python str.lower() is modelled with Char.toLower (they agree on ASCII,
  which is the only alphabet the journal uses for its own tokens).
* Python datetime values (naive UTC timestamps produced by datetime.utcnow)
  are modelled as natural numbers counting seconds.  The third-party codec
  pair datetime.isoformat / dateutil.parser.parse, which is not part of
  this repository, is a lossless printable encoding of naive datetimes; it
  is modelled here by the (likewise lossless, likewise digit-only,
  likewise whitespace- and tab-free) decimal codec natStr / parseNat.
  Python int ids (tweet ids, always non-negative) are modelled as Nat with
  the same decimal codec, matching str(i) / int(s).
* The filesystem is modelled as an association list from file paths to the
  list of text lines the file holds; appending a line models writing
  str(entry) + a newline to a file opened in append position.
* Wall-clock time ("now", produced by datetime.utcnow()) is passed to each
  operation explicitly.
* The fcntl advisory lock made in try_lock is modelled separately (see the
  lock section); inside the journal operations the lock only serialises the
  critical sections, so the sequential functional semantics given here is
  the behaviour of each critical section.
-/

/-- Python strings, modelled as lists of characters. -/
abbrev Chars := List Char

/-- Python str.lower(), restricted to the per-character case mapping. -/
def lowerStr (s : Chars) : Chars := s.map Char.toLower

/-- Python str.strip(): drop leading and trailing whitespace. -/
def pyStrip (s : Chars) : Chars :=
  ((s.dropWhile Char.isWhitespace).reverse.dropWhile Char.isWhitespace).reverse

/-- The character for an ASCII decimal digit. -/
def digitChar (d : Nat) : Char := Char.ofNat (48 + d)

/-- Read an ASCII decimal digit back from a character. -/
def charDigit? (c : Char) : Option Nat :=
  if 48 ≤ c.toNat ∧ c.toNat ≤ 57 then some (c.toNat - 48) else none

/-- Most-significant-first digits of a positive number (fuel-driven). -/
def natStrAux : Nat → Nat → Chars
  | 0, _ => []
  | fuel + 1, n => if n = 0 then [] else natStrAux fuel (n / 10) ++ [digitChar (n % 10)]

/-- Python str(n) for a non-negative int n. -/
def natStr (n : Nat) : Chars := if n = 0 then ['0'] else natStrAux n n

/-- Read each character of a string as a decimal digit. -/
def parseDigits : Chars → Option (List Nat)
  | [] => some []
  | c :: cs => (charDigit? c).bind fun d => (parseDigits cs).map (fun ds => d :: ds)

/-- The value of a most-significant-first digit list. -/
def digitsVal (ds : List Nat) : Nat := ds.foldl (fun a d => a * 10 + d) 0

/-- Python int(s) for a string of decimal digits (failure is None). -/
def parseNat (s : Chars) : Option Nat :=
  if s = [] then none else (parseDigits s).map digitsVal

/-- datetime.isoformat, under the datetime-as-Nat abstraction (see header). -/
def dateIso (d : Nat) : Chars := natStr d

/-- dateutil.parser.parse, under the datetime-as-Nat abstraction. -/
def dateParse (s : Chars) : Option Nat := parseNat s

/-- The token Python prints for None: str(None). -/
def noneTok : Chars := "None".toList

/-- JOURNAL_FILE_EXT in journal.py. -/
def JOURNAL_FILE_EXT : Chars := ".journal".toList

/-- JOURNAL_ACCESS_TIMEOUT_SECS in journal.py. -/
def JOURNAL_ACCESS_TIMEOUT_SECS : Nat := 3 * 60

/-- TRANSACTION_EXPIRY_TIMEOUT_SECS in journal.py. -/
def TRANSACTION_EXPIRY_TIMEOUT_SECS : Nat := 5 * 60

/-- JournalEntryType in journal.py. -/
inductive JournalEntryType where
  | Started
  | Abandoned
  | Finished
deriving DecidableEq, Repr

/-- The name of a JournalEntryType member, as used in the file format. -/
def JournalEntryType.name : JournalEntryType → Chars
  | .Started => "Started".toList
  | .Abandoned => "Abandoned".toList
  | .Finished => "Finished".toList

/-- JournalEntryType[s]: look a member up by name. -/
def JournalEntryType.fromName (s : Chars) : Option JournalEntryType :=
  if s = "Started".toList then some .Started
  else if s = "Abandoned".toList then some .Abandoned
  else if s = "Finished".toList then some .Finished
  else none

/-- JournalEntry in journal.py.  The cached _lwr_user_name field is derived
and therefore not stored. -/
structure JournalEntry where
  date : Nat
  user_name : Chars
  entry_type : JournalEntryType
  old_max_id : Option Nat
  new_max_id : Option Nat
  new_max_date : Option Nat
deriving DecidableEq, Repr

/-- JournalEntry.started_now (utcnow passed explicitly as now). -/
def JournalEntry.started_now (now : Nat) (user_name : Chars) (from_max_id : Option Nat) :
    JournalEntry :=
  ⟨now, user_name, .Started, from_max_id, none, none⟩

/-- JournalEntry.finished_now (utcnow passed explicitly as now). -/
def JournalEntry.finished_now (now : Nat) (user_name : Chars) (old_max_id : Option Nat)
    (new_max_id : Option Nat) (new_max_date : Option Nat) : JournalEntry :=
  ⟨now, user_name, .Finished, old_max_id, new_max_id, new_max_date⟩

/-- JournalEntry.abandoned_now (utcnow passed explicitly as now). -/
def JournalEntry.abandoned_now (now : Nat) (user_name : Chars) (old_max_id : Option Nat) :
    JournalEntry :=
  ⟨now, user_name, .Abandoned, old_max_id, none, none⟩

/-- JournalEntry.is_for_user: case-insensitive user match. -/
def JournalEntry.is_for_user (e : JournalEntry) (user_name : Chars) : Bool :=
  lowerStr user_name = lowerStr e.user_name

/-- JournalEntry.is_completion_of.  Note the receiver is required to be the
Started entry and the argument the Finished/Abandoned one. -/
def JournalEntry.is_completion_of (e entry : JournalEntry) : Bool :=
  if e.entry_type ≠ JournalEntryType.Started then false
  else if entry.entry_type = JournalEntryType.Started then false
  else e.is_for_user entry.user_name &&
    (e.old_max_id = none || e.old_max_id = entry.old_max_id)

/-- JournalEntry.is_expired, with utcnow passed explicitly as now. -/
def JournalEntry.is_expired (now : Nat) (e : JournalEntry) : Bool :=
  (now : Int) - (e.date : Int) > (TRANSACTION_EXPIRY_TIMEOUT_SECS : Int)

/-- str(None) if the id is None else str(id), as in JournalEntry.__str__. -/
def optNatStr : Option Nat → Chars
  | none => noneTok
  | some k => natStr k

/-- str(None) if the date is None else date.isoformat(). -/
def optDateStr : Option Nat → Chars
  | none => noneTok
  | some d => dateIso d

/-- The six tab-separated fields of JournalEntry.__str__. -/
def JournalEntry.fields (e : JournalEntry) : List Chars :=
  [dateIso e.date,
   e.user_name,
   e.entry_type.name,
   optNatStr e.old_max_id,
   optNatStr e.new_max_id,
   optDateStr e.new_max_date]

/-- JournalEntry.__str__: the fields joined by single tab characters. -/
def JournalEntry.toLine (e : JournalEntry) : Chars :=
  List.intercalate ['\t'] e.fields

/-- Decode one optional-int field (absent, the None token, or digits). -/
def optNatTok : Option Chars → Option (Option Nat)
  | none => some none
  | some s => if s = noneTok then some none else (parseNat s).map (fun k => some k)

/-- Decode one optional-date field (absent, the None token, or a date). -/
def optDateTok : Option Chars → Option (Option Nat)
  | none => some none
  | some s => if s = noneTok then some none else (dateParse s).map (fun d => some d)

/-- JournalEntry.from_str.  Returns none where the Python code would raise
(a malformed date, an unknown entry-type name, a malformed id, or fewer
than three fields); fields past the sixth are ignored, as in the source. -/
def JournalEntry.from_str (line : Chars) : Option JournalEntry :=
  match (pyStrip line).splitOn '\t' with
  | p0 :: p1 :: p2 :: rest =>
    match dateParse p0, JournalEntryType.fromName p2,
          optNatTok rest[0]?, optNatTok rest[1]?, optDateTok rest[2]? with
    | some d, some k, some o, some n, some nd => some ⟨d, p1, k, o, n, nd⟩
    | _, _, _, _, _ => none
  | _ => none

/-- JournalResultType in journal.py. -/
inductive JournalResultType where
  | NotFound
  | Found
  | InUse
  | BrokenJournal
deriving DecidableEq, Repr

/-- JournalResponse in journal.py.  The underscore-prefixed Python fields
are stored here with Field suffixes; the guarded property accessors are
the functions below. -/
structure JournalResponse where
  result_type : JournalResultType
  user : Chars
  maxIdField : Option Nat
  lastAccessField : Option Nat
  lastTweetDateField : Option Nat
deriving DecidableEq, Repr

/-- JournalResponse.not_found. -/
def JournalResponse.not_found (user_name : Chars) : JournalResponse :=
  ⟨.NotFound, user_name, none, none, none⟩

/-- JournalResponse.found. -/
def JournalResponse.found (j_entry : JournalEntry) : JournalResponse :=
  ⟨.Found, j_entry.user_name, j_entry.new_max_id, some j_entry.date, j_entry.new_max_date⟩

/-- JournalResponse.in_use. -/
def JournalResponse.in_use (j_entry : JournalEntry) : JournalResponse :=
  ⟨.InUse, j_entry.user_name, j_entry.old_max_id, some j_entry.date, none⟩

/-- JournalResponse.broken_journal. -/
def JournalResponse.broken_journal (user_name : Chars) : JournalResponse :=
  ⟨.BrokenJournal, user_name, none, none, none⟩

/-- The max_id property: raises ValueError on NotFound and BrokenJournal. -/
def JournalResponse.max_id (r : JournalResponse) : Except String (Option Nat) :=
  if r.result_type = JournalResultType.NotFound then
    Except.error ("Cannot access max_id for user which was not found")
  else if r.result_type = JournalResultType.BrokenJournal then
    Except.error ("Cannot access max_id for user, journal is inaccessible")
  else Except.ok r.maxIdField

/-- The last_access property: raises ValueError on NotFound and BrokenJournal. -/
def JournalResponse.last_access (r : JournalResponse) : Except String (Option Nat) :=
  if r.result_type = JournalResultType.NotFound then
    Except.error ("Cannot access last_access for user which was not found")
  else if r.result_type = JournalResultType.BrokenJournal then
    Except.error ("Cannot access last_Access for user, journal is inaccessible")
  else Except.ok r.lastAccessField

/-- The last_tweet_date_utc property: raises ValueError unless Found. -/
def JournalResponse.last_tweet_date_utc (r : JournalResponse) : Except String (Option Nat) :=
  if r.result_type ≠ JournalResultType.Found then
    Except.error ("Cannot access last_tweet_date_utc for if user who was not found")
  else Except.ok r.lastTweetDateField

/-- The journal directory, as an association list from file path to the
lines the file holds.  A file absent from the list reads as empty, which
also covers the freshly touched (created empty) file. -/
abbrev FileSys := List (Chars × List Chars)

/-- Read the lines of a file (empty when the file does not exist). -/
def fsGet : FileSys → Chars → List Chars
  | [], _ => []
  | (q, ls) :: rest, p => if q = p then ls else fsGet rest p

/-- Replace the contents of a file, creating it when absent. -/
def fsPut : FileSys → Chars → List Chars → FileSys
  | [], p, ls => [(p, ls)]
  | (q, m) :: rest, p, ls =>
    if q = p then (p, ls) :: rest else (q, m) :: fsPut rest p ls

/-- The errors try_start can raise while reading a journal file: a line
that fails to decode (the Python parse exceptions), or a decoded entry for
a different user (the ValueError reading
"Invalid journal file, wrong user found"). -/
inductive JournalError where
  | malformedEntry (line : Chars)
  | crossSubjectEntry
deriving DecidableEq, Repr

/-- Journal._journal_for_user: directory, slash, lower-cased name, fixed
extension.  (The Python code also touches the file into existence; a
missing file already reads as empty under fsGet.) -/
def journalForUser (journal_dir : Chars) (user_name : Chars) : Chars :=
  journal_dir ++ ('/' :: lowerStr user_name) ++ JOURNAL_FILE_EXT

/-- One step of the stack build in try_start's read loop: push the entry,
first popping the top when entry.is_completion_of(top) holds.  The head of
the list is the top of the stack (the end of the Python list). -/
def pushEntry (stack : List JournalEntry) (entry : JournalEntry) : List JournalEntry :=
  match stack with
  | [] => [entry]
  | top :: rest =>
    if entry.is_completion_of top then entry :: rest else entry :: top :: rest

/-- try_start's read loop: strip each line, skip blanks, decode, reject
entries for other users, and condense onto the stack. -/
def scanLines (user_name : Chars) : List Chars → List JournalEntry →
    Except JournalError (List JournalEntry)
  | [], acc => Except.ok acc
  | line :: rest, acc =>
    let l := pyStrip line
    if l = [] then scanLines user_name rest acc
    else
      match JournalEntry.from_str l with
      | none => Except.error (JournalError.malformedEntry line)
      | some entry =>
        if entry.is_for_user user_name then
          scanLines user_name rest (pushEntry acc entry)
        else Except.error JournalError.crossSubjectEntry

/-- The outcome of try_start's unwind loop over the condensed stack. -/
inductive UnwindResult where
  | inUse (l : JournalEntry)
  | found (l : JournalEntry)
  | notFound
deriving DecidableEq, Repr

/-- try_start's unwind loop: pop from the most recent entry down; an
unexpired Started wins as InUse, an expired Started and an Abandoned are
skipped, a Finished wins as Found, an empty stack is NotFound. -/
def unwind (now : Nat) : List JournalEntry → UnwindResult
  | [] => UnwindResult.notFound
  | l :: rest =>
    match l.entry_type with
    | .Started => if l.is_expired now then unwind now rest else UnwindResult.inUse l
    | .Finished => UnwindResult.found l
    | .Abandoned => unwind now rest

/-- Journal.abandon: append an Abandoned entry to the user's journal. -/
def Journal.abandon (journal_dir : Chars) (fs : FileSys) (user_name : Chars)
    (old_max_id : Option Nat) (now : Nat) : FileSys :=
  let entry := JournalEntry.abandoned_now now user_name old_max_id
  let path := journalForUser journal_dir user_name
  fsPut fs path (fsGet fs path ++ [entry.toLine])

/-- Journal.finish: append a Finished entry to the user's journal. -/
def Journal.finish (journal_dir : Chars) (fs : FileSys) (user_name : Chars)
    (old_max_id : Option Nat) (new_max_id : Option Nat) (new_max_date : Option Nat)
    (now : Nat) : FileSys :=
  let entry := JournalEntry.finished_now now user_name old_max_id new_max_id new_max_date
  let path := journalForUser journal_dir user_name
  fsPut fs path (fsGet fs path ++ [entry.toLine])

/-- Journal.try_start.  With a forced from_max_id the journal is not read:
a Started entry carrying it is appended at the end of the file and an
InUse response for that entry is returned.  Otherwise the file is read,
condensed and unwound; on InUse nothing is written, on Found a Started
entry carrying the response's max_id (the Finished entry's new_max_id) is
appended, and on NotFound a Started entry carrying None is appended. -/
def Journal.try_start (journal_dir : Chars) (fs : FileSys) (user_name : Chars)
    (from_max_id : Option Nat) (now : Nat) :
    Except JournalError (JournalResponse × FileSys) :=
  let path := journalForUser journal_dir user_name
  let lines := fsGet fs path
  match from_max_id with
  | some _ =>
    let entry := JournalEntry.started_now now user_name from_max_id
    Except.ok (JournalResponse.in_use entry, fsPut fs path (lines ++ [entry.toLine]))
  | none =>
    match scanLines user_name lines [] with
    | Except.error e => Except.error e
    | Except.ok stack =>
      match unwind now stack with
      | UnwindResult.inUse l => Except.ok (JournalResponse.in_use l, fs)
      | UnwindResult.found l =>
        let newEntry := JournalEntry.started_now now user_name l.new_max_id
        Except.ok (JournalResponse.found l,
          fsPut fs path (lines ++ [newEntry.toLine]))
      | UnwindResult.notFound =>
        let newEntry := JournalEntry.started_now now user_name none
        Except.ok (JournalResponse.not_found user_name,
          fsPut fs path (lines ++ [newEntry.toLine]))

/-- The outcome the operating system gives one flock attempt in try_lock:
success, contention (EAGAIN, carrying the random() draw in [0,1) used for
the jittered sleep that follows), or an unrelated IOError. -/
inductive FlockOutcome where
  | ok
  | eagain (jitter : ℚ)
  | err
deriving Repr

/-- What try_lock does in the end, instrumented with the total time slept
across its retries (the cumulative wait). -/
inductive LockResult where
  | locked (slept : ℚ)
  | timedOut (slept : ℚ)
  | ioError (slept : ℚ)
deriving DecidableEq, Repr

/-- try_lock in journal.py.  att gives the outcome of each successive
flock attempt (attempt number i first); timeout_secs is decremented by a
fixed 0.1 per contended retry while the actual sleep is the jittered
0.05 + random() * 0.05; slept accumulates the actual sleeps.  A
contended attempt with the budget exhausted re-raises (the timeout
failure), and a non-EAGAIN IOError re-raises immediately. -/
def try_lock (att : Nat → FlockOutcome) (i : Nat) (timeout_secs : ℚ) (slept : ℚ) :
    LockResult :=
  match att i with
  | FlockOutcome.ok => LockResult.locked slept
  | FlockOutcome.err => LockResult.ioError slept
  | FlockOutcome.eagain j =>
    if h : timeout_secs ≤ 0 then LockResult.timedOut slept
    else try_lock att (i + 1) (timeout_secs - 1/10) (slept + (1/20 + j * (1/20)))
termination_by (Int.ceil (timeout_secs * 10)).toNat
decreasing_by
  have h1 : (timeout_secs - 1/10) * 10 = timeout_secs * 10 - ((1 : Int) : ℚ) := by
    push_cast
    ring
  have h2 : (0 : Int) < Int.ceil (timeout_secs * 10) := by
    rw [Int.ceil_pos]
    have : (0 : ℚ) < timeout_secs := lt_of_not_le h
    linarith
  rw [h1, Int.ceil_sub_int]
  omega

/-- The number of contended retries try_lock tolerates before timing out
when every attempt is contended: one per 0.1 of the timeout budget. -/
def lockRetries (timeout_secs : ℚ) : Nat :=
  if h : timeout_secs ≤ 0 then 0 else lockRetries (timeout_secs - 1/10) + 1
termination_by (Int.ceil (timeout_secs * 10)).toNat
decreasing_by
  have h1 : (timeout_secs - 1/10) * 10 = timeout_secs * 10 - ((1 : Int) : ℚ) := by
    push_cast
    ring
  have h2 : (0 : Int) < Int.ceil (timeout_secs * 10) := by
    rw [Int.ceil_pos]
    have : (0 : ℚ) < timeout_secs := lt_of_not_le h
    linarith
  rw [h1, Int.ceil_sub_int]
  omega

/-- The total time try_lock sleeps over n contended retries whose random()
draws are j i, j (i+1), ..., each sleep being 0.05 + random() * 0.05. -/
def sleptSum (j : Nat → ℚ) (i : Nat) (n : Nat) : ℚ :=
  ∑ k ∈ Finset.range n, (1/20 + j (i + k) * (1/20))

/-! ## Lemmas about the decimal codec -/

theorem charDigit_digitChar (d : Nat) (h : d < 10) : charDigit? (digitChar d) = some d := by
  interval_cases d <;> rfl

theorem digitChar_not_ws (d : Nat) (h : d < 10) : (digitChar d).isWhitespace = false := by
  interval_cases d <;> rfl

theorem digitChar_ne_tab (d : Nat) (h : d < 10) : digitChar d ≠ '\t' := by
  interval_cases d <;> decide

theorem digitsVal_append_one (ds : List Nat) (d : Nat) :
    digitsVal (ds ++ [d]) = digitsVal ds * 10 + d := by
  simp [digitsVal, List.foldl_append]

theorem natStrAux_spec : ∀ fuel n, n ≤ fuel →
    ∃ ds : List Nat, natStrAux fuel n = ds.map digitChar ∧ (∀ d ∈ ds, d < 10) ∧
      digitsVal ds = n ∧ (ds = [] ↔ n = 0) := by
  intro fuel
  induction fuel with
  | zero =>
    intro n hn
    have h0 : n = 0 := Nat.le_zero.mp hn
    subst h0
    exact ⟨[], rfl, by simp, by simp [digitsVal], by simp⟩
  | succ fuel ih =>
    intro n hn
    by_cases h0 : n = 0
    · refine ⟨[], by simp [natStrAux, h0], by simp, by simp [digitsVal, h0], by simp [h0]⟩
    · have hdiv : n / 10 ≤ fuel := by
        have := Nat.div_lt_self (Nat.pos_of_ne_zero h0) (by norm_num : 1 < 10)
        omega
      obtain ⟨ds, hmap, hlt, hval, hnil⟩ := ih (n / 10) hdiv
      refine ⟨ds ++ [n % 10], ?_, ?_, ?_, by simp [h0]⟩
      · simp only [natStrAux]
        rw [if_neg h0, hmap, List.map_append]
        rfl
      · intro d hd
        rcases List.mem_append.mp hd with h | h
        · exact hlt d h
        · simp at h
          omega
      · rw [digitsVal_append_one, hval]
        omega

theorem natStr_spec (n : Nat) :
    ∃ ds : List Nat, natStr n = ds.map digitChar ∧ (∀ d ∈ ds, d < 10) ∧
      digitsVal ds = n ∧ ds ≠ [] := by
  by_cases h0 : n = 0
  · subst h0
    exact ⟨[0], rfl, by simp, by simp [digitsVal], by simp⟩
  · obtain ⟨ds, hmap, hlt, hval, hnil⟩ := natStrAux_spec n n le_rfl
    exact ⟨ds, by simp [natStr, h0, hmap], hlt, hval, fun h => h0 (hnil.mp h)⟩

theorem parseDigits_map (ds : List Nat) (h : ∀ d ∈ ds, d < 10) :
    parseDigits (ds.map digitChar) = some ds := by
  induction ds with
  | nil => rfl
  | cons d rest ih =>
    simp only [List.map_cons, parseDigits]
    rw [charDigit_digitChar d (h d (by simp))]
    rw [ih (fun x hx => h x (by simp [hx]))]
    rfl

theorem parseNat_natStr (n : Nat) : parseNat (natStr n) = some n := by
  obtain ⟨ds, hmap, hlt, hval, hnil⟩ := natStr_spec n
  rw [hmap, parseNat]
  rw [if_neg (by simp [hnil])]
  rw [parseDigits_map ds hlt]
  simp [hval]

theorem natStr_chars {n : Nat} {c : Char} (h : c ∈ natStr n) :
    ∃ d, d < 10 ∧ c = digitChar d := by
  obtain ⟨ds, hmap, hlt, _, _⟩ := natStr_spec n
  rw [hmap] at h
  obtain ⟨d, hd, rfl⟩ := List.mem_map.mp h
  exact ⟨d, hlt d hd, rfl⟩

theorem natStr_not_ws {n : Nat} {c : Char} (h : c ∈ natStr n) : c.isWhitespace = false := by
  obtain ⟨d, hd, rfl⟩ := natStr_chars h
  exact digitChar_not_ws d hd

theorem tab_notin_natStr (n : Nat) : '\t' ∉ natStr n := by
  intro h
  obtain ⟨d, hd, hc⟩ := natStr_chars h
  exact digitChar_ne_tab d hd hc.symm

theorem natStr_ne_nil (n : Nat) : natStr n ≠ [] := by
  obtain ⟨ds, hmap, _, _, hnil⟩ := natStr_spec n
  rw [hmap]
  simp [hnil]

theorem natStr_ne_noneTok (n : Nat) : natStr n ≠ noneTok := by
  intro h
  have hN : 'N' ∈ natStr n := by
    rw [h]
    decide
  obtain ⟨d, hd, hc⟩ := natStr_chars hN
  interval_cases d <;> exact absurd hc (by decide)

/-! ## Lemmas about stripping and the line format -/

theorem pyStrip_eq_self {s : Chars}
    (hh : ∀ c, s.head? = some c → c.isWhitespace = false)
    (hl : ∀ c, s.getLast? = some c → c.isWhitespace = false) : pyStrip s = s := by
  cases s with
  | nil => rfl
  | cons a t =>
    have ha : a.isWhitespace = false := hh a rfl
    have h1 : List.dropWhile Char.isWhitespace (a :: t) = a :: t := by
      simp [List.dropWhile_cons, ha]
    unfold pyStrip
    rw [h1]
    cases hr : (a :: t).reverse with
    | nil => simp at hr
    | cons b rb =>
      have hb : (a :: t).getLast? = some b := by
        rw [← List.head?_reverse, hr]
        rfl
      have hbw : b.isWhitespace = false := hl b hb
      have h2 : List.dropWhile Char.isWhitespace (b :: rb) = b :: rb := by
        simp [List.dropWhile_cons, hbw]
      rw [h2, ← hr, List.reverse_reverse]

theorem noneTok_getLast : noneTok.getLast? = some 'e' := rfl

theorem optNatStr_ne_nil (o : Option Nat) : optNatStr o ≠ [] := by
  cases o with
  | none => decide
  | some k => exact natStr_ne_nil k

theorem optDateStr_ne_nil (o : Option Nat) : optDateStr o ≠ [] := by
  cases o with
  | none => decide
  | some d => exact natStr_ne_nil d

theorem optNatStr_last_not_ws (o : Option Nat) {c : Char}
    (h : (optNatStr o).getLast? = some c) : c.isWhitespace = false := by
  cases o with
  | none =>
    simp only [optNatStr] at h
    rw [noneTok_getLast] at h
    cases h
    rfl
  | some k =>
    obtain ⟨hne, rfl⟩ := List.mem_getLast?_eq_getLast h
    exact natStr_not_ws (List.getLast_mem hne)

theorem optDateStr_last_not_ws (o : Option Nat) {c : Char}
    (h : (optDateStr o).getLast? = some c) : c.isWhitespace = false := by
  cases o with
  | none =>
    simp only [optDateStr] at h
    rw [noneTok_getLast] at h
    cases h
    rfl
  | some d =>
    obtain ⟨hne, rfl⟩ := List.mem_getLast?_eq_getLast h
    exact natStr_not_ws (List.getLast_mem hne)

theorem tab_notin_noneTok : '\t' ∉ noneTok := by decide

theorem tab_notin_optNatStr (o : Option Nat) : '\t' ∉ optNatStr o := by
  cases o with
  | none => exact tab_notin_noneTok
  | some k => exact tab_notin_natStr k

theorem tab_notin_optDateStr (o : Option Nat) : '\t' ∉ optDateStr o := by
  cases o with
  | none => exact tab_notin_noneTok
  | some d => exact tab_notin_natStr d

theorem tab_notin_kindName (k : JournalEntryType) : '\t' ∉ k.name := by
  cases k <;> decide

theorem fields_ne_nil (e : JournalEntry) : e.fields ≠ [] := by
  simp [JournalEntry.fields]

theorem tab_notin_fields (e : JournalEntry) (hu : '\t' ∉ e.user_name) :
    ∀ l ∈ e.fields, '\t' ∉ l := by
  intro l hl
  simp only [JournalEntry.fields, List.mem_cons, List.not_mem_nil, or_false] at hl
  rcases hl with rfl | rfl | rfl | rfl | rfl | rfl
  · exact tab_notin_natStr e.date
  · exact hu
  · exact tab_notin_kindName e.entry_type
  · exact tab_notin_optNatStr e.old_max_id
  · exact tab_notin_optNatStr e.new_max_id
  · exact tab_notin_optDateStr e.new_max_date

theorem splitOn_toLine (e : JournalEntry) (hu : '\t' ∉ e.user_name) :
    (e.toLine).splitOn '\t' = e.fields :=
  List.splitOn_intercalate e.fields '\t' (tab_notin_fields e hu) (fields_ne_nil e)

theorem toLine_eq_append (e : JournalEntry) :
    e.toLine = dateIso e.date ++ '\t' :: (e.user_name ++ '\t' :: (e.entry_type.name ++
      '\t' :: (optNatStr e.old_max_id ++ '\t' :: (optNatStr e.new_max_id ++
      '\t' :: optDateStr e.new_max_date)))) := by
  simp [JournalEntry.toLine, JournalEntry.fields, List.intercalate, List.intersperse]

theorem toLine_head_not_ws (e : JournalEntry) {c : Char}
    (h : (e.toLine).head? = some c) : c.isWhitespace = false := by
  rw [toLine_eq_append] at h
  obtain ⟨ds, hmap, hlt, _, hne⟩ := natStr_spec e.date
  rcases ds with _ | ⟨d, ds'⟩
  · exact absurd rfl hne
  · rw [show dateIso e.date = digitChar d :: ds'.map digitChar from hmap] at h
    rw [List.cons_append] at h
    cases h
    exact digitChar_not_ws d (hlt d (by simp))

theorem toLine_getLast (e : JournalEntry) :
    (e.toLine).getLast? = (optDateStr e.new_max_date).getLast? := by
  rw [toLine_eq_append]
  have h6 := optDateStr_ne_nil e.new_max_date
  rw [List.getLast?_append_of_ne_nil _ (by simp)]
  rw [show ('\t' :: (e.user_name ++ '\t' :: (e.entry_type.name ++
      '\t' :: (optNatStr e.old_max_id ++ '\t' :: (optNatStr e.new_max_id ++
      '\t' :: optDateStr e.new_max_date))))) = ['\t'] ++ (e.user_name ++ '\t' :: (e.entry_type.name ++
      '\t' :: (optNatStr e.old_max_id ++ '\t' :: (optNatStr e.new_max_id ++
      '\t' :: optDateStr e.new_max_date)))) from rfl]
  rw [List.getLast?_append_of_ne_nil _ (by simp)]
  rw [List.getLast?_append_of_ne_nil _ (by simp)]
  rw [show ('\t' :: (e.entry_type.name ++
      '\t' :: (optNatStr e.old_max_id ++ '\t' :: (optNatStr e.new_max_id ++
      '\t' :: optDateStr e.new_max_date)))) = ['\t'] ++ (e.entry_type.name ++
      '\t' :: (optNatStr e.old_max_id ++ '\t' :: (optNatStr e.new_max_id ++
      '\t' :: optDateStr e.new_max_date))) from rfl]
  rw [List.getLast?_append_of_ne_nil _ (by simp)]
  rw [List.getLast?_append_of_ne_nil _ (by simp)]
  rw [show ('\t' :: (optNatStr e.old_max_id ++ '\t' :: (optNatStr e.new_max_id ++
      '\t' :: optDateStr e.new_max_date))) = ['\t'] ++ (optNatStr e.old_max_id ++
      '\t' :: (optNatStr e.new_max_id ++ '\t' :: optDateStr e.new_max_date)) from rfl]
  rw [List.getLast?_append_of_ne_nil _ (by simp)]
  rw [List.getLast?_append_of_ne_nil _ (by simp [h6])]
  rw [show ('\t' :: (optNatStr e.new_max_id ++ '\t' :: optDateStr e.new_max_date)) =
      ['\t'] ++ (optNatStr e.new_max_id ++ '\t' :: optDateStr e.new_max_date) from rfl]
  rw [List.getLast?_append_of_ne_nil _ (by simp [h6])]
  rw [List.getLast?_append_of_ne_nil _ (by simp [h6])]
  rw [show ('\t' :: optDateStr e.new_max_date) = ['\t'] ++ optDateStr e.new_max_date from rfl]
  rw [List.getLast?_append_of_ne_nil _ h6]

theorem pyStrip_toLine (e : JournalEntry) : pyStrip e.toLine = e.toLine := by
  refine pyStrip_eq_self (fun c hc => toLine_head_not_ws e hc) (fun c hc => ?_)
  rw [toLine_getLast] at hc
  exact optDateStr_last_not_ws e.new_max_date hc

theorem toLine_ne_nil (e : JournalEntry) : e.toLine ≠ [] := by
  rw [toLine_eq_append]
  simp

theorem optNatTok_optNatStr (o : Option Nat) : optNatTok (some (optNatStr o)) = some o := by
  cases o with
  | none => simp [optNatTok, optNatStr]
  | some k =>
    simp only [optNatTok, optNatStr]
    rw [if_neg (natStr_ne_noneTok k), parseNat_natStr]
    rfl

theorem optDateTok_optDateStr (o : Option Nat) : optDateTok (some (optDateStr o)) = some o := by
  cases o with
  | none => simp [optDateTok, optDateStr]
  | some d =>
    simp only [optDateTok, optDateStr, dateIso, dateParse]
    rw [if_neg (natStr_ne_noneTok d), parseNat_natStr]
    rfl

theorem fromName_name (k : JournalEntryType) : JournalEntryType.fromName k.name = some k := by
  cases k <;> rfl

/-- The round trip of the entry codec, for entries whose subject contains
no tab character (a tab in the subject corrupts the field structure). -/
theorem from_str_toLine (e : JournalEntry) (hu : '\t' ∉ e.user_name) :
    JournalEntry.from_str e.toLine = some e := by
  unfold JournalEntry.from_str
  rw [pyStrip_toLine, splitOn_toLine e hu]
  simp only [JournalEntry.fields, List.getElem?_cons_zero, List.getElem?_cons_succ]
  rw [show dateParse (dateIso e.date) = some e.date from parseNat_natStr e.date]
  rw [fromName_name, optNatTok_optNatStr, optNatTok_optNatStr, optDateTok_optDateStr]

/-! ## Lemmas about the filesystem model and the replay engine -/

theorem fsGet_fsPut (fs : FileSys) (p : Chars) (ls : List Chars) :
    fsGet (fsPut fs p ls) p = ls := by
  induction fs with
  | nil => simp [fsGet, fsPut]
  | cons hd rest ih =>
    obtain ⟨q, m⟩ := hd
    by_cases h : q = p
    · simp [fsPut, h, fsGet]
    · simp [fsPut, h, fsGet, ih]

theorem is_for_user_self (now : Nat) (u : Chars) (o : Option Nat) :
    (JournalEntry.started_now now u o).is_for_user u = true := by
  simp [JournalEntry.is_for_user, JournalEntry.started_now]

theorem scanLines_cons_toLine (u : Chars) (e : JournalEntry) (rest : List Chars)
    (acc : List JournalEntry) (hu : '\t' ∉ e.user_name) (hfor : e.is_for_user u = true) :
    scanLines u (e.toLine :: rest) acc = scanLines u rest (pushEntry acc e) := by
  simp only [scanLines]
  rw [pyStrip_toLine]
  rw [if_neg (toLine_ne_nil e)]
  rw [from_str_toLine e hu]
  simp [hfor]

theorem unwind_skip_expired (now : Nat) (l : JournalEntry) (rest : List JournalEntry)
    (hty : l.entry_type = JournalEntryType.Started) (hexp : l.is_expired now = true) :
    unwind now (l :: rest) = unwind now rest := by
  simp only [unwind]
  rw [hty, hexp]
  rfl

theorem unwind_in_use (now : Nat) (l : JournalEntry) (rest : List JournalEntry)
    (hty : l.entry_type = JournalEntryType.Started) (hexp : l.is_expired now = false) :
    unwind now (l :: rest) = UnwindResult.inUse l := by
  simp only [unwind]
  rw [hty, hexp]
  rfl

theorem tryStart_empty_file (jdir : Chars) (fs : FileSys) (u : Chars) (now : Nat)
    (hget : fsGet fs (journalForUser jdir u) = []) :
    Journal.try_start jdir fs u none now =
      Except.ok (JournalResponse.not_found u,
        fsPut fs (journalForUser jdir u) [(JournalEntry.started_now now u none).toLine]) := by
  simp [Journal.try_start, hget, scanLines, unwind]

theorem from_str_nil_eq_none : JournalEntry.from_str [] = none := rfl

theorem scanLines_error_mono (u : Chars) (bad : Chars) (e : JournalEntry)
    (hdec : JournalEntry.from_str (pyStrip bad) = some e)
    (hnot : e.is_for_user u = false) :
    ∀ (lines : List Chars) (acc : List JournalEntry), bad ∈ lines →
      ∃ err, scanLines u lines acc = Except.error err := by
  have hne : pyStrip bad ≠ [] := by
    intro h
    rw [h, from_str_nil_eq_none] at hdec
    simp at hdec
  intro lines
  induction lines with
  | nil =>
    intro acc hmem
    exact absurd hmem (List.not_mem_nil bad)
  | cons l rest ih =>
    intro acc hmem
    rcases List.mem_cons.mp hmem with rfl | hmem
    · refine ⟨JournalError.crossSubjectEntry, ?_⟩
      simp only [scanLines]
      rw [if_neg hne, hdec]
      simp [hnot]
    · simp only [scanLines]
      by_cases hblank : pyStrip l = []
      · rw [if_pos hblank]
        exact ih acc hmem
      · rw [if_neg hblank]
        cases hd : JournalEntry.from_str (pyStrip l) with
        | none => exact ⟨JournalError.malformedEntry l, rfl⟩
        | some e2 =>
          cases hfor : e2.is_for_user u with
          | false => exact ⟨JournalError.crossSubjectEntry, by simp [hfor]⟩
          | true =>
            simp only [hfor, if_true]
            exact ih (pushEntry acc e2) hmem

theorem scanLines_cross_subject (u : Chars) (bad : Chars) (e : JournalEntry)
    (hdec : JournalEntry.from_str (pyStrip bad) = some e)
    (hnot : e.is_for_user u = false) :
    ∀ (pre : List Chars) (post : List Chars) (acc : List JournalEntry),
      (∀ l ∈ pre, pyStrip l = [] ∨ ∃ e2, JournalEntry.from_str (pyStrip l) = some e2 ∧
        e2.is_for_user u = true) →
      scanLines u (pre ++ bad :: post) acc = Except.error JournalError.crossSubjectEntry := by
  have hne : pyStrip bad ≠ [] := by
    intro h
    rw [h, from_str_nil_eq_none] at hdec
    simp at hdec
  intro pre
  induction pre with
  | nil =>
    intro post acc _
    simp only [List.nil_append, scanLines]
    rw [if_neg hne, hdec]
    simp [hnot]
  | cons p pre' ih =>
    intro post acc hclean
    have hp := hclean p (by simp)
    simp only [List.cons_append, scanLines]
    rcases hp with hblank | ⟨e2, hd2, hfor2⟩
    · rw [if_pos hblank]
      exact ih post acc (fun l hl => hclean l (by simp [hl]))
    · have hblank : pyStrip p ≠ [] := by
        intro h
        rw [h, from_str_nil_eq_none] at hd2
        simp at hd2
      rw [if_neg hblank, hd2]
      simp only [hfor2, if_true]
      exact ih post (pushEntry acc e2) (fun l hl => hclean l (by simp [hl]))

theorem tryStart_scan_error (jdir : Chars) (fs : FileSys) (u : Chars) (now : Nat)
    (err : JournalError)
    (h : scanLines u (fsGet fs (journalForUser jdir u)) [] = Except.error err) :
    Journal.try_start jdir fs u none now = Except.error err := by
  simp [Journal.try_start, h]

/-! ## Lemmas about the lock model -/

theorem lockRetries_eq_zero {t : ℚ} (h : t ≤ 0) : lockRetries t = 0 := by
  rw [lockRetries]
  simp [h]

theorem lockRetries_eq_succ {t : ℚ} (h : ¬ t ≤ 0) :
    lockRetries t = lockRetries (t - 1/10) + 1 := by
  conv_lhs => rw [lockRetries]
  simp [h]

theorem le_zero_of_lockRetries_eq_zero {t : ℚ} (h : lockRetries t = 0) : t ≤ 0 := by
  by_contra hc
  rw [lockRetries_eq_succ hc] at h
  simp at h

theorem sleptSum_zero (j : Nat → ℚ) (i : Nat) : sleptSum j i 0 = 0 := by
  simp [sleptSum]

theorem sleptSum_succ_front (j : Nat → ℚ) (i : Nat) (n : Nat) :
    sleptSum j i (n + 1) = (1/20 + j i * (1/20)) + sleptSum j (i + 1) n := by
  unfold sleptSum
  rw [Finset.sum_range_succ']
  rw [Finset.sum_congr rfl (fun k _ => by rw [show i + (k + 1) = (i + 1) + k by omega])]
  rw [add_comm]
  simp

theorem try_lock_att_ok (att : Nat → FlockOutcome) (i : Nat) (t s : ℚ)
    (h : att i = FlockOutcome.ok) : try_lock att i t s = LockResult.locked s := by
  rw [try_lock, h]

theorem try_lock_att_err (att : Nat → FlockOutcome) (i : Nat) (t s : ℚ)
    (h : att i = FlockOutcome.err) : try_lock att i t s = LockResult.ioError s := by
  rw [try_lock, h]

theorem try_lock_eagain_timeout (att : Nat → FlockOutcome) (i : Nat) (t s jv : ℚ)
    (hatt : att i = FlockOutcome.eagain jv) (h : t ≤ 0) :
    try_lock att i t s = LockResult.timedOut s := by
  rw [try_lock, hatt]
  simp [h]

theorem try_lock_eagain_retry (att : Nat → FlockOutcome) (i : Nat) (t s jv : ℚ)
    (hatt : att i = FlockOutcome.eagain jv) (h : ¬ t ≤ 0) :
    try_lock att i t s =
      try_lock att (i + 1) (t - 1/10) (s + (1/20 + jv * (1/20))) := by
  conv_lhs => rw [try_lock]
  rw [hatt]
  simp [h]

theorem try_lock_all_eagain (att : Nat → FlockOutcome) (j : Nat → ℚ)
    (hatt : ∀ k, att k = FlockOutcome.eagain (j k)) :
    ∀ (n : Nat) (t : ℚ), lockRetries t = n → ∀ (i : Nat) (s : ℚ),
      try_lock att i t s = LockResult.timedOut (s + sleptSum j i n) := by
  intro n
  induction n with
  | zero =>
    intro t ht i s
    have h0 : t ≤ 0 := le_zero_of_lockRetries_eq_zero ht
    rw [try_lock_eagain_timeout att i t s (j i) (hatt i) h0, sleptSum_zero]
    rw [add_zero]
  | succ n ih =>
    intro t ht i s
    have hpos : ¬ t ≤ 0 := by
      by_contra hc
      rw [lockRetries_eq_zero hc] at ht
      simp at ht
    have ht' : lockRetries (t - 1/10) = n := by
      rw [lockRetries_eq_succ hpos] at ht
      omega
    rw [try_lock_eagain_retry att i t s (j i) (hatt i) hpos]
    rw [ih (t - 1/10) ht' (i + 1) (s + (1/20 + j i * (1/20)))]
    rw [sleptSum_succ_front]
    ring_nf

theorem lockRetries_budget (t : ℚ) :
    t ≤ (lockRetries t : ℚ) / 10 ∧ (¬ t ≤ 0 → ((lockRetries t : ℚ) - 1) / 10 < t) := by
  generalize h : lockRetries t = n
  induction n generalizing t with
  | zero =>
    have h0 : t ≤ 0 := le_zero_of_lockRetries_eq_zero h
    constructor
    · simpa using h0
    · intro hc
      exact absurd h0 hc
  | succ n ih =>
    have hpos : ¬ t ≤ 0 := by
      by_contra hc
      rw [lockRetries_eq_zero hc] at h
      simp at h
    have ht' : lockRetries (t - 1/10) = n := by
      rw [lockRetries_eq_succ hpos] at h
      omega
    obtain ⟨ih1, ih2⟩ := ih (t - 1/10) ht'
    constructor
    · push_cast
      linarith
    · intro _
      by_cases hz : t - 1/10 ≤ 0
      · have : lockRetries (t - 1/10) = 0 := lockRetries_eq_zero hz
        rw [this] at ht'
        subst ht'
        push_cast
        linarith [lt_of_not_le hpos]
      · have := ih2 hz
        push_cast
        linarith

theorem sleptSum_lower (j : Nat → ℚ) (hj : ∀ k, 0 ≤ j k) (i n : Nat) :
    (n : ℚ) / 20 ≤ sleptSum j i n := by
  unfold sleptSum
  have h1 : ∀ k ∈ Finset.range n, (1/20 : ℚ) ≤ 1/20 + j (i + k) * (1/20) := by
    intro k _
    have := hj (i + k)
    nlinarith
  calc (n : ℚ) / 20 = ∑ _k ∈ Finset.range n, (1/20 : ℚ) := by
        rw [Finset.sum_const, Finset.card_range]
        ring
    _ ≤ _ := Finset.sum_le_sum h1

theorem sleptSum_upper (j : Nat → ℚ) (hj : ∀ k, j k < 1) (i n : Nat) (hn : 0 < n) :
    sleptSum j i n < (n : ℚ) / 10 := by
  unfold sleptSum
  have h1 : ∀ k ∈ Finset.range n, 1/20 + j (i + k) * (1/20) < (1/10 : ℚ) := by
    intro k _
    have := hj (i + k)
    nlinarith
  calc ∑ k ∈ Finset.range n, (1/20 + j (i + k) * (1/20)) <
        ∑ _k ∈ Finset.range n, (1/10 : ℚ) :=
        Finset.sum_lt_sum_of_nonempty (Finset.nonempty_range_iff.mpr (Nat.pos_iff_ne_zero.mp hn)) h1
    _ = (n : ℚ) / 10 := by
        rw [Finset.sum_const, Finset.card_range]
        ring

/-! ## Scenario helpers -/

theorem tryStart_single_entry_started (jdir v : Chars) (fs : FileSys) (e : JournalEntry)
    (now : Nat) (hty : e.entry_type = JournalEntryType.Started)
    (hu : '\t' ∉ e.user_name) (hfor : e.is_for_user v = true)
    (hget : fsGet fs (journalForUser jdir v) = [e.toLine]) :
    (e.is_expired now = false →
      Journal.try_start jdir fs v none now =
        Except.ok (JournalResponse.in_use e, fs)) ∧
    (e.is_expired now = true →
      Journal.try_start jdir fs v none now =
        Except.ok (JournalResponse.not_found v,
          fsPut fs (journalForUser jdir v)
            [e.toLine, (JournalEntry.started_now now v none).toLine])) := by
  have hscan : scanLines v [e.toLine] [] = Except.ok [e] := by
    rw [scanLines_cons_toLine v e [] [] hu hfor]
    rfl
  constructor
  · intro hexp
    have hunw : unwind now [e] = UnwindResult.inUse e := unwind_in_use now e [] hty hexp
    simp [Journal.try_start, hget, hscan, hunw]
  · intro hexp
    have hunw : unwind now [e] = UnwindResult.notFound := by
      rw [unwind_skip_expired now e [] hty hexp]
      rfl
    simp [Journal.try_start, hget, hscan, hunw]

theorem tryStart_started_then_finished (jdir u : Chars) (fs : FileSys)
    (t1 t2 now : Nat) (W D : Nat) (hu : '\t' ∉ u)
    (hget : fsGet fs (journalForUser jdir u) =
      [(JournalEntry.started_now t1 u none).toLine,
       (JournalEntry.finished_now t2 u none (some W) (some D)).toLine]) :
    Journal.try_start jdir fs u none now =
      Except.ok
        (JournalResponse.found (JournalEntry.finished_now t2 u none (some W) (some D)),
         fsPut fs (journalForUser jdir u)
           [(JournalEntry.started_now t1 u none).toLine,
            (JournalEntry.finished_now t2 u none (some W) (some D)).toLine,
            (JournalEntry.started_now now u (some W)).toLine]) := by
  have hforS := is_for_user_self t1 u none
  have hforF : (JournalEntry.finished_now t2 u none (some W) (some D)).is_for_user u = true := by
    simp [JournalEntry.is_for_user, JournalEntry.finished_now]
  have hscan : scanLines u
      [(JournalEntry.started_now t1 u none).toLine,
       (JournalEntry.finished_now t2 u none (some W) (some D)).toLine] [] =
      Except.ok [JournalEntry.finished_now t2 u none (some W) (some D),
                 JournalEntry.started_now t1 u none] := by
    rw [scanLines_cons_toLine u (JournalEntry.started_now t1 u none) _ [] hu hforS]
    rw [scanLines_cons_toLine u (JournalEntry.finished_now t2 u none (some W) (some D)) []
      (pushEntry [] (JournalEntry.started_now t1 u none)) hu hforF]
    rfl
  have hunw : unwind now
      [JournalEntry.finished_now t2 u none (some W) (some D),
       JournalEntry.started_now t1 u none] =
      UnwindResult.found (JournalEntry.finished_now t2 u none (some W) (some D)) := rfl
  simp [Journal.try_start, hget, hscan, hunw]
  rfl

/-! ## The claims -/

/-- C1: the claim says that after tryStart (NotFound) and an immediate
abandon(old=None), the next tryStart returns NotFound again.  Evaluating
the code at that input instead returns InUse: the read loop asks whether
the old stack top completes the newly read entry (the roles are reversed,
so an Abandoned entry never pops the open Started beneath it, contrary to
the loop's own "condense start-finish pairs" comment and to
is_completion_of's docstring), and the unexpired Started then wins. -/
theorem C1_abandon_does_not_free_subject :
    Journal.try_start [] [] ("carol".toList) none 0 =
      Except.ok (JournalResponse.not_found ("carol".toList),
        fsPut [] (journalForUser [] ("carol".toList))
          [(JournalEntry.started_now 0 ("carol".toList) none).toLine]) ∧
    Journal.try_start []
        (Journal.abandon []
          (fsPut [] (journalForUser [] ("carol".toList))
            [(JournalEntry.started_now 0 ("carol".toList) none).toLine])
          ("carol".toList) none 1)
        ("carol".toList) none 2 =
      Except.ok
        (JournalResponse.in_use (JournalEntry.started_now 0 ("carol".toList) none),
         Journal.abandon []
          (fsPut [] (journalForUser [] ("carol".toList))
            [(JournalEntry.started_now 0 ("carol".toList) none).toLine])
          ("carol".toList) none 1) ∧
    (JournalResponse.in_use (JournalEntry.started_now 0 ("carol".toList) none)).result_type =
      JournalResultType.InUse ∧
    JournalResultType.InUse ≠ JournalResultType.NotFound :=
  ⟨rfl, rfl, rfl, by decide⟩

/-- C2: a forced start appends exactly one Started entry carrying the
forced watermark to the end of the file, whatever the prior content (which
is neither read nor decoded: the response and the appended line are the
same for every file content), and returns an InUse response owning the
subject with that watermark. -/
theorem C2_forced_start_bypasses_history (journal_dir : Chars) (fs : FileSys)
    (user_name : Chars) (w : Nat) (now : Nat) :
    Journal.try_start journal_dir fs user_name (some w) now =
      Except.ok
        (JournalResponse.in_use (JournalEntry.started_now now user_name (some w)),
         fsPut fs (journalForUser journal_dir user_name)
           (fsGet fs (journalForUser journal_dir user_name) ++
             [(JournalEntry.started_now now user_name (some w)).toLine])) ∧
    (JournalEntry.started_now now user_name (some w)).entry_type = JournalEntryType.Started ∧
    (JournalEntry.started_now now user_name (some w)).old_max_id = some w ∧
    (JournalResponse.in_use (JournalEntry.started_now now user_name (some w))).result_type =
      JournalResultType.InUse ∧
    (JournalResponse.in_use (JournalEntry.started_now now user_name (some w))).maxIdField =
      some w :=
  ⟨rfl, rfl, rfl, rfl, rfl⟩

/-- C3, refuted as stated: for an entry whose subject contains a tab
character, decoding the encoded line does not give the entry back (the tab
corrupts the field structure and decoding fails outright). -/
theorem C3_counterexample_tab_in_subject :
    JournalEntry.from_str (JournalEntry.toLine
        ⟨0, ['a', '\t', 'b'], JournalEntryType.Started, none, none, none⟩) = none ∧
    JournalEntry.from_str (JournalEntry.toLine
        ⟨0, ['a', '\t', 'b'], JournalEntryType.Started, none, none, none⟩) ≠
      some ⟨0, ['a', '\t', 'b'], JournalEntryType.Started, none, none, none⟩ :=
  ⟨rfl, by decide⟩

/-- C3, amended: for every entry whose subject contains no tab character,
decoding the encoded single-line text form yields an entry equal to the
original in every field; missing watermarks and dates are encoded as the
explicit None token, which is not an empty field. -/
theorem C3_round_trip_amended (e : JournalEntry) (hu : '\t' ∉ e.user_name) :
    JournalEntry.from_str (JournalEntry.toLine e) = some e ∧
    optNatStr none = noneTok ∧ optDateStr none = noneTok ∧ noneTok ≠ [] :=
  ⟨from_str_toLine e hu, rfl, rfl, by decide⟩

theorem C3_round_trip_witness :
    JournalEntry.from_str (JournalEntry.toLine
        ⟨5, "alice".toList, JournalEntryType.Finished, none, some 100, some 7⟩) =
      some ⟨5, "alice".toList, JournalEntryType.Finished, none, some 100, some 7⟩ :=
  (C3_round_trip_amended
      ⟨5, "alice".toList, JournalEntryType.Finished, none, some 100, some 7⟩
      (by decide)).1

/-- C4: an expired open Started entry is skipped by the unwind loop, and on
a fresh subject whose only entry is one expired Started entry, try_start
returns NotFound again and appends a fresh Started entry. -/
theorem C4_expired_lease_treated_absent (jdir user_name : Chars) (now1 now2 : Nat)
    (hu : '\t' ∉ user_name)
    (hexp : (JournalEntry.started_now now1 user_name none).is_expired now2 = true) :
    (∀ (l : JournalEntry) (rest : List JournalEntry),
      l.entry_type = JournalEntryType.Started → l.is_expired now2 = true →
      unwind now2 (l :: rest) = unwind now2 rest) ∧
    ∀ fs : FileSys, fsGet fs (journalForUser jdir user_name) = [] →
      Journal.try_start jdir fs user_name none now1 =
        Except.ok (JournalResponse.not_found user_name,
          fsPut fs (journalForUser jdir user_name)
            [(JournalEntry.started_now now1 user_name none).toLine]) ∧
      Journal.try_start jdir
          (fsPut fs (journalForUser jdir user_name)
            [(JournalEntry.started_now now1 user_name none).toLine])
          user_name none now2 =
        Except.ok (JournalResponse.not_found user_name,
          fsPut
            (fsPut fs (journalForUser jdir user_name)
              [(JournalEntry.started_now now1 user_name none).toLine])
            (journalForUser jdir user_name)
            [(JournalEntry.started_now now1 user_name none).toLine,
             (JournalEntry.started_now now2 user_name none).toLine]) := by
  refine ⟨fun l rest hty hexpd => unwind_skip_expired now2 l rest hty hexpd, ?_⟩
  intro fs hget
  refine ⟨tryStart_empty_file jdir fs user_name now1 hget, ?_⟩
  exact (tryStart_single_entry_started jdir user_name
      (fsPut fs (journalForUser jdir user_name)
        [(JournalEntry.started_now now1 user_name none).toLine])
      (JournalEntry.started_now now1 user_name none) now2 rfl hu
      (is_for_user_self now1 user_name none)
      (fsGet_fsPut fs (journalForUser jdir user_name)
        [(JournalEntry.started_now now1 user_name none).toLine])).2 hexp

theorem C4_expired_lease_witness :
    Journal.try_start [] (fsPut [] (journalForUser [] ("eve".toList))
        [(JournalEntry.started_now 0 ("eve".toList) none).toLine])
      ("eve".toList) none 1000 =
      Except.ok (JournalResponse.not_found ("eve".toList),
        fsPut (fsPut [] (journalForUser [] ("eve".toList))
            [(JournalEntry.started_now 0 ("eve".toList) none).toLine])
          (journalForUser [] ("eve".toList))
          [(JournalEntry.started_now 0 ("eve".toList) none).toLine,
           (JournalEntry.started_now 1000 ("eve".toList) none).toLine]) :=
  ((C4_expired_lease_treated_absent [] ("eve".toList) 0 1000 (by decide) (by decide)).2
    [] rfl).2

/-- C5: after a NotFound tryStart and a finish(old=None, new=W, date=D), a
later tryStart returns Found carrying watermark W and date D and appends a
Started entry whose prior watermark is W. -/
theorem C5_finish_then_found (jdir user_name : Chars) (now1 now2 now3 : Nat)
    (W D : Nat) (hu : '\t' ∉ user_name) :
    ∀ fs : FileSys, fsGet fs (journalForUser jdir user_name) = [] →
      Journal.try_start jdir fs user_name none now1 =
        Except.ok (JournalResponse.not_found user_name,
          fsPut fs (journalForUser jdir user_name)
            [(JournalEntry.started_now now1 user_name none).toLine]) ∧
      Journal.finish jdir
          (fsPut fs (journalForUser jdir user_name)
            [(JournalEntry.started_now now1 user_name none).toLine])
          user_name none (some W) (some D) now2 =
        fsPut
          (fsPut fs (journalForUser jdir user_name)
            [(JournalEntry.started_now now1 user_name none).toLine])
          (journalForUser jdir user_name)
          [(JournalEntry.started_now now1 user_name none).toLine,
           (JournalEntry.finished_now now2 user_name none (some W) (some D)).toLine] ∧
      Journal.try_start jdir
          (fsPut
            (fsPut fs (journalForUser jdir user_name)
              [(JournalEntry.started_now now1 user_name none).toLine])
            (journalForUser jdir user_name)
            [(JournalEntry.started_now now1 user_name none).toLine,
             (JournalEntry.finished_now now2 user_name none (some W) (some D)).toLine])
          user_name none now3 =
        Except.ok
          (JournalResponse.found
            (JournalEntry.finished_now now2 user_name none (some W) (some D)),
           fsPut
            (fsPut
              (fsPut fs (journalForUser jdir user_name)
                [(JournalEntry.started_now now1 user_name none).toLine])
              (journalForUser jdir user_name)
              [(JournalEntry.started_now now1 user_name none).toLine,
               (JournalEntry.finished_now now2 user_name none (some W) (some D)).toLine])
            (journalForUser jdir user_name)
            [(JournalEntry.started_now now1 user_name none).toLine,
             (JournalEntry.finished_now now2 user_name none (some W) (some D)).toLine,
             (JournalEntry.started_now now3 user_name (some W)).toLine]) ∧
      (JournalResponse.found
        (JournalEntry.finished_now now2 user_name none (some W) (some D))).result_type =
        JournalResultType.Found ∧
      (JournalResponse.found
        (JournalEntry.finished_now now2 user_name none (some W) (some D))).maxIdField =
        some W ∧
      (JournalResponse.found
        (JournalEntry.finished_now now2 user_name none (some W)
          (some D))).lastTweetDateField = some D ∧
      (JournalEntry.started_now now3 user_name (some W)).old_max_id = some W := by
  intro fs hget
  refine ⟨tryStart_empty_file jdir fs user_name now1 hget, ?_, ?_, rfl, rfl, rfl, rfl⟩
  · show fsPut _ _ (fsGet _ _ ++ _) = _
    rw [fsGet_fsPut]
    rfl
  · refine tryStart_started_then_finished jdir user_name _ now1 now2 now3 W D hu ?_
    rw [fsGet_fsPut]

theorem C5_finish_then_found_witness :
    Journal.try_start []
        (fsPut
          (fsPut [] (journalForUser [] ("alice".toList))
            [(JournalEntry.started_now 0 ("alice".toList) none).toLine])
          (journalForUser [] ("alice".toList))
          [(JournalEntry.started_now 0 ("alice".toList) none).toLine,
           (JournalEntry.finished_now 1 ("alice".toList) none (some 100) (some 7)).toLine])
        ("alice".toList) none 2 =
      Except.ok
        (JournalResponse.found
          (JournalEntry.finished_now 1 ("alice".toList) none (some 100) (some 7)),
         fsPut
          (fsPut
            (fsPut [] (journalForUser [] ("alice".toList))
              [(JournalEntry.started_now 0 ("alice".toList) none).toLine])
            (journalForUser [] ("alice".toList))
            [(JournalEntry.started_now 0 ("alice".toList) none).toLine,
             (JournalEntry.finished_now 1 ("alice".toList) none (some 100) (some 7)).toLine])
          (journalForUser [] ("alice".toList))
          [(JournalEntry.started_now 0 ("alice".toList) none).toLine,
           (JournalEntry.finished_now 1 ("alice".toList) none (some 100) (some 7)).toLine,
           (JournalEntry.started_now 2 ("alice".toList) (some 100)).toLine]) :=
  ((C5_finish_then_found [] ("alice".toList) 0 1 2 100 7 (by decide) [] rfl).2).2.1

/-- C6: on a fresh subject, two sequential tryStart calls with no finish or
abandon in between give NotFound then InUse (the second sees the first's
unexpired open Started lease) and the second call leaves the file
untouched. -/
theorem C6_second_start_sees_lease (jdir user_name : Chars) (now1 now2 : Nat)
    (fs : FileSys) (hu : '\t' ∉ user_name)
    (hget : fsGet fs (journalForUser jdir user_name) = [])
    (hfresh : (JournalEntry.started_now now1 user_name none).is_expired now2 = false) :
    Journal.try_start jdir fs user_name none now1 =
      Except.ok (JournalResponse.not_found user_name,
        fsPut fs (journalForUser jdir user_name)
          [(JournalEntry.started_now now1 user_name none).toLine]) ∧
    Journal.try_start jdir
        (fsPut fs (journalForUser jdir user_name)
          [(JournalEntry.started_now now1 user_name none).toLine])
        user_name none now2 =
      Except.ok
        (JournalResponse.in_use (JournalEntry.started_now now1 user_name none),
         fsPut fs (journalForUser jdir user_name)
           [(JournalEntry.started_now now1 user_name none).toLine]) ∧
    (JournalResponse.not_found user_name).result_type = JournalResultType.NotFound ∧
    (JournalResponse.in_use (JournalEntry.started_now now1 user_name none)).result_type =
      JournalResultType.InUse :=
  ⟨tryStart_empty_file jdir fs user_name now1 hget,
   (tryStart_single_entry_started jdir user_name
      (fsPut fs (journalForUser jdir user_name)
        [(JournalEntry.started_now now1 user_name none).toLine])
      (JournalEntry.started_now now1 user_name none) now2 rfl hu
      (is_for_user_self now1 user_name none)
      (fsGet_fsPut fs (journalForUser jdir user_name)
        [(JournalEntry.started_now now1 user_name none).toLine])).1 hfresh,
   rfl, rfl⟩

theorem C6_second_start_witness :
    Journal.try_start []
        (fsPut [] (journalForUser [] ("bob".toList))
          [(JournalEntry.started_now 0 ("bob".toList) none).toLine])
        ("bob".toList) none 10 =
      Except.ok
        (JournalResponse.in_use (JournalEntry.started_now 0 ("bob".toList) none),
         fsPut [] (journalForUser [] ("bob".toList))
           [(JournalEntry.started_now 0 ("bob".toList) none).toLine]) :=
  (C6_second_start_sees_lease [] ("bob".toList) 0 10 [] (by decide) rfl
    (by decide)).2.1

/-- C7: two subject spellings that agree after lower-casing name the same
journal file; entry matching is likewise case-insensitive; and a tryStart
of one spelling observes the open lease a tryStart of the other spelling
created. -/
theorem C7_case_insensitive_identity (jdir u v : Chars) (now1 now2 : Nat)
    (fs : FileSys) (hlow : lowerStr u = lowerStr v) (hu : '\t' ∉ u)
    (hget : fsGet fs (journalForUser jdir u) = [])
    (hfresh : (JournalEntry.started_now now1 u none).is_expired now2 = false) :
    (∀ (jd u2 v2 : Chars), lowerStr u2 = lowerStr v2 →
      journalForUser jd u2 = journalForUser jd v2) ∧
    (∀ (e : JournalEntry) (u2 v2 : Chars), lowerStr u2 = lowerStr v2 →
      e.is_for_user u2 = e.is_for_user v2) ∧
    Journal.try_start jdir fs u none now1 =
      Except.ok (JournalResponse.not_found u,
        fsPut fs (journalForUser jdir u)
          [(JournalEntry.started_now now1 u none).toLine]) ∧
    Journal.try_start jdir
        (fsPut fs (journalForUser jdir u)
          [(JournalEntry.started_now now1 u none).toLine])
        v none now2 =
      Except.ok
        (JournalResponse.in_use (JournalEntry.started_now now1 u none),
         fsPut fs (journalForUser jdir u)
           [(JournalEntry.started_now now1 u none).toLine]) := by
  have hpath : journalForUser jdir u = journalForUser jdir v := by
    simp [journalForUser, hlow]
  have hfor : (JournalEntry.started_now now1 u none).is_for_user v = true := by
    simp [JournalEntry.is_for_user, JournalEntry.started_now, hlow.symm]
  refine ⟨fun jd u2 v2 h => by simp [journalForUser, h],
    fun e u2 v2 h => by simp [JournalEntry.is_for_user, h],
    tryStart_empty_file jdir fs u now1 hget, ?_⟩
  refine (tryStart_single_entry_started jdir v
      (fsPut fs (journalForUser jdir u)
        [(JournalEntry.started_now now1 u none).toLine])
      (JournalEntry.started_now now1 u none) now2 rfl hu hfor ?_).1 hfresh
  rw [← hpath]
  exact fsGet_fsPut fs (journalForUser jdir u)
    [(JournalEntry.started_now now1 u none).toLine]

theorem C7_case_insensitive_witness :
    Journal.try_start []
        (fsPut [] (journalForUser [] ("bob2".toList))
          [(JournalEntry.started_now 0 ("bob2".toList) none).toLine])
        ("Bob2".toList) none 10 =
      Except.ok
        (JournalResponse.in_use (JournalEntry.started_now 0 ("bob2".toList) none),
         fsPut [] (journalForUser [] ("bob2".toList))
           [(JournalEntry.started_now 0 ("bob2".toList) none).toLine]) :=
  (C7_case_insensitive_identity [] ("bob2".toList) ("Bob2".toList) 0 10 []
    (by decide) (by decide) rfl (by decide)).2.2.2

/-- C8, refuted as stated: a journal file whose first line is undecodable
and whose second line is a decodable entry for a different subject makes
try_start fail with the malformed-entry error, not the cross-subject
error (the lines are decoded in order and the first failure wins). -/
theorem C8_counterexample_malformed_line_first :
    Journal.try_start []
        (fsPut [] (journalForUser [] ("alice".toList))
          ["garbage".toList,
           (JournalEntry.started_now 0 ("other".toList) none).toLine])
        ("alice".toList) none 0 =
      Except.error (JournalError.malformedEntry ("garbage".toList)) ∧
    JournalError.malformedEntry ("garbage".toList) ≠ JournalError.crossSubjectEntry ∧
    JournalEntry.from_str
        (pyStrip ((JournalEntry.started_now 0 ("other".toList) none).toLine)) =
      some (JournalEntry.started_now 0 ("other".toList) none) ∧
    (JournalEntry.started_now 0 ("other".toList) none).is_for_user ("alice".toList) =
      false :=
  ⟨rfl, by decide, rfl, rfl⟩

/-- C8, amended: a journal file containing a decodable entry for a
different subject always makes try_start (without a forced watermark) fail
with an error rather than return a response or append anything, and the
error is the cross-subject one whenever every earlier line is blank or
decodes as an entry for the subject (an earlier undecodable line fails
with the malformed-entry error instead). -/
theorem C8_cross_subject_detection (jdir user_name : Chars) (now : Nat) (fs : FileSys)
    (bad : Chars) (e : JournalEntry)
    (hmem : bad ∈ fsGet fs (journalForUser jdir user_name))
    (hdec : JournalEntry.from_str (pyStrip bad) = some e)
    (hnot : e.is_for_user user_name = false) :
    (∃ err, Journal.try_start jdir fs user_name none now = Except.error err) ∧
    ∀ (pre post : List Chars),
      fsGet fs (journalForUser jdir user_name) = pre ++ bad :: post →
      (∀ l ∈ pre, pyStrip l = [] ∨ ∃ e2, JournalEntry.from_str (pyStrip l) = some e2 ∧
        e2.is_for_user user_name = true) →
      Journal.try_start jdir fs user_name none now =
        Except.error JournalError.crossSubjectEntry := by
  constructor
  · obtain ⟨err, herr⟩ :=
      scanLines_error_mono user_name bad e hdec hnot
        (fsGet fs (journalForUser jdir user_name)) [] hmem
    exact ⟨err, tryStart_scan_error jdir fs user_name now err herr⟩
  · intro pre post hsplit hclean
    refine tryStart_scan_error jdir fs user_name now _ ?_
    rw [hsplit]
    exact scanLines_cross_subject user_name bad e hdec hnot pre post [] hclean

theorem C8_cross_subject_witness :
    Journal.try_start []
        (fsPut [] (journalForUser [] ("alice".toList))
          [(JournalEntry.started_now 0 ("other".toList) none).toLine])
        ("alice".toList) none 3 =
      Except.error JournalError.crossSubjectEntry :=
  (C8_cross_subject_detection [] ("alice".toList) 3
      (fsPut [] (journalForUser [] ("alice".toList))
        [(JournalEntry.started_now 0 ("other".toList) none).toLine])
      ((JournalEntry.started_now 0 ("other".toList) none).toLine)
      (JournalEntry.started_now 0 ("other".toList) none)
      (by rw [fsGet_fsPut]; exact List.mem_singleton.mpr rfl)
      rfl rfl).2 [] []
    (by rw [fsGet_fsPut]; rfl)
    (fun l hl => absurd hl (List.not_mem_nil l))

/-- C9, refuted as stated: with the minimal jitter draw, a contended lock
call with timeout 0.1 times out after a cumulative wait of only 0.05,
which does not exceed the timeout, so "fails exactly when the cumulative
wait exceeds timeoutSeconds" does not hold of the code. -/
theorem C9_counterexample_times_out_below_timeout :
    try_lock (fun _ => FlockOutcome.eagain 0) 0 (1/10) 0 = LockResult.timedOut (1/20) ∧
    ¬ ((1/20 : ℚ) > 1/10) := by
  constructor
  · rw [try_lock_eagain_retry (fun _ => FlockOutcome.eagain 0) 0 (1/10) 0 0 rfl
      (by norm_num)]
    rw [try_lock_eagain_timeout (fun _ => FlockOutcome.eagain 0) 1 (1/10 - 1/10)
      (0 + (1/20 + 0 * (1/20))) 0 rfl (by norm_num)]
    norm_num
  · norm_num

/-- C9, amended: lock acquisition terminates for every timeout value (the
model is a total function); a non-EAGAIN error propagates immediately and
a free lock is taken immediately; and under permanent contention the call
times out after exactly one retry per 0.1 of the timeout budget, so the
cumulative jittered wait at failure lies between half the timeout and the
timeout plus one retry interval, rather than exactly exceeding the
timeout. -/
theorem C9_lock_timeout_budget (att : Nat → FlockOutcome) (j : Nat → ℚ)
    (hj : ∀ k, 0 ≤ j k ∧ j k < 1) (t : ℚ) (ht : 0 < t) :
    (∀ (i : Nat) (s : ℚ), att i = FlockOutcome.err →
      try_lock att i t s = LockResult.ioError s) ∧
    (∀ (i : Nat) (s : ℚ), att i = FlockOutcome.ok →
      try_lock att i t s = LockResult.locked s) ∧
    ((∀ k, att k = FlockOutcome.eagain (j k)) →
      try_lock att 0 t 0 = LockResult.timedOut (sleptSum j 0 (lockRetries t)) ∧
      t ≤ (lockRetries t : ℚ) / 10 ∧
      ((lockRetries t : ℚ) - 1) / 10 < t ∧
      (lockRetries t : ℚ) / 20 ≤ sleptSum j 0 (lockRetries t) ∧
      sleptSum j 0 (lockRetries t) < (lockRetries t : ℚ) / 10 ∧
      t / 2 ≤ sleptSum j 0 (lockRetries t)) := by
  refine ⟨fun i s h => try_lock_att_err att i t s h,
    fun i s h => try_lock_att_ok att i t s h, fun hatt => ?_⟩
  have hrun := try_lock_all_eagain att j hatt (lockRetries t) t rfl 0 0
  rw [zero_add] at hrun
  obtain ⟨hb1, hb2⟩ := lockRetries_budget t
  have hb2' := hb2 (not_le.mpr ht)
  have hlow := sleptSum_lower j (fun k => (hj k).1) 0 (lockRetries t)
  have hnpos : 0 < lockRetries t := by
    rcases Nat.eq_zero_or_pos (lockRetries t) with h0 | h0
    · have := le_zero_of_lockRetries_eq_zero h0
      linarith
    · exact h0
  have hupp := sleptSum_upper j (fun k => (hj k).2) 0 (lockRetries t) hnpos
  exact ⟨hrun, hb1, hb2', hlow, hupp, by linarith⟩

theorem C9_lock_timeout_witness :
    try_lock (fun _ => FlockOutcome.eagain 0) 0 1 0 =
      LockResult.timedOut (sleptSum (fun _ => 0) 0 (lockRetries 1)) :=
  ((C9_lock_timeout_budget (fun _ => FlockOutcome.eagain 0) (fun _ => 0)
      (fun _ => ⟨le_refl 0, by norm_num⟩) 1 (by norm_num)).2.2
    (fun _ => rfl)).1

/-- C10: reading max_id or last_access errors exactly on NotFound and
BrokenJournal responses, reading last_tweet_date_utc errors exactly on
non-Found responses, and the forced-start path returns an InUse response
(on which last_tweet_date_utc therefore errors). -/
theorem C10_response_accessor_guards :
    (∀ r : JournalResponse,
      ((∃ msg, r.max_id = Except.error msg) ↔
        (r.result_type = JournalResultType.NotFound ∨
         r.result_type = JournalResultType.BrokenJournal)) ∧
      ((∃ msg, r.last_access = Except.error msg) ↔
        (r.result_type = JournalResultType.NotFound ∨
         r.result_type = JournalResultType.BrokenJournal)) ∧
      ((∃ msg, r.last_tweet_date_utc = Except.error msg) ↔
        r.result_type ≠ JournalResultType.Found)) ∧
    (∀ (journal_dir : Chars) (fs : FileSys) (user_name : Chars) (w now : Nat),
      (Journal.try_start journal_dir fs user_name (some w) now).map
          (fun p => (p.1).result_type) = Except.ok JournalResultType.InUse) ∧
    (∀ e : JournalEntry, ∃ msg,
      (JournalResponse.in_use e).last_tweet_date_utc = Except.error msg) := by
  refine ⟨?_, fun journal_dir fs user_name w now => rfl, fun e => ⟨_, rfl⟩⟩
  intro r
  obtain ⟨rt, u, m, la, ltd⟩ := r
  cases rt <;>
    simp [JournalResponse.max_id, JournalResponse.last_access,
      JournalResponse.last_tweet_date_utc]
